import Mathlib

/-!
Verification of the figma-glass-effect repository.

The GLSL fragment shader (src/npm/src/shaders/fragment.glsl, also present as
src/unnamed/part_003) and the TypeScript class PhysicsGlass
(src/npm/src/PhysicsGlass.ts) are embedded shallowly over the rationals.
GLSL floats are modelled as exact rationals; the GLSL sqrt function is
passed in as an explicit parameter (sq : Q -> Q) wherever its value flows
into a result, and every concrete instantiation of that parameter agrees
with the real square root on every radicand that is actually evaluated.
Distances obtained from the GLSL length function are taken as an input
(dist), together with the fact dist * dist equals the squared length, which
holds exactly for the real square root.
-/

/-- GLSL vec2 over exact rationals. -/
structure Vec2 where
  x : ℚ
  y : ℚ
deriving DecidableEq, Repr

/-- GLSL vec3 over exact rationals. -/
structure Vec3 where
  x : ℚ
  y : ℚ
  z : ℚ
deriving DecidableEq, Repr

/-- GLSL vec4 over exact rationals. -/
structure Vec4 where
  x : ℚ
  y : ℚ
  z : ℚ
  w : ℚ
deriving DecidableEq, Repr

/-- GLSL dot(a, b) for vec3. -/
def dot3 (a b : Vec3) : ℚ := a.x * b.x + a.y * b.y + a.z * b.z

/-- GLSL unary minus for vec3. -/
def neg3 (a : Vec3) : Vec3 := ⟨-a.x, -a.y, -a.z⟩

/-- GLSL componentwise addition for vec3. -/
def add3 (a b : Vec3) : Vec3 := ⟨a.x + b.x, a.y + b.y, a.z + b.z⟩

/-- GLSL scalar * vec3. -/
def smul3 (t : ℚ) (a : Vec3) : Vec3 := ⟨t * a.x, t * a.y, t * a.z⟩

/-- GLSL reflect(I, N) = I - 2 * dot(N, I) * N. -/
def reflect3 (i n : Vec3) : Vec3 := add3 i (smul3 (-(2 * dot3 n i)) n)

/-- The value cosI = dot(-incident, normal) computed by refract3D
(fragment shader line 85). -/
def cosIncidence (incident normal : Vec3) : ℚ := dot3 (neg3 incident) normal

/-- The value sinT2 = eta * eta * (1.0 - cosI * cosI) computed by refract3D
(fragment shader line 86). -/
def sinT2val (incident normal : Vec3) (eta : ℚ) : ℚ :=
  eta * eta * (1 - cosIncidence incident normal * cosIncidence incident normal)

/-- Embedding of refract3D (fragment shader lines 84-95).  The GLSL sqrt is
the parameter sq; it is only ever applied to 1.0 - sinT2, and only on the
branch where sinT2 < 1.0. -/
def refract3D (sq : ℚ → ℚ) (incident normal : Vec3) (eta : ℚ) : Vec3 :=
  if 1 ≤ sinT2val incident normal eta then
    reflect3 incident normal
  else
    add3 (smul3 eta incident)
      (smul3 (eta * cosIncidence incident normal - sq (1 - sinT2val incident normal eta)) normal)

/-- C4: for every incident direction, surface normal and eta with
eta^2 * (1 - cosI^2) >= 1, refract3D returns exactly the mirror-reflected
direction, and on the other branch the radicand 1 - sinT2 handed to sqrt is
nonnegative (in fact positive), the result being the Snell formula
eta * incident + (eta * cosI - cosT) * normal. -/
theorem refract3D_total_internal_reflection (sq : ℚ → ℚ) (incident normal : Vec3) (eta : ℚ) :
    (1 ≤ sinT2val incident normal eta →
      refract3D sq incident normal eta = reflect3 incident normal) ∧
    (sinT2val incident normal eta < 1 →
      0 ≤ 1 - sinT2val incident normal eta ∧
      refract3D sq incident normal eta =
        add3 (smul3 eta incident)
          (smul3 (eta * cosIncidence incident normal -
            sq (1 - sinT2val incident normal eta)) normal)) := by
  constructor
  · intro h
    simp [refract3D, h]
  · intro h
    refine ⟨by linarith, ?_⟩
    rw [refract3D, if_neg (by linarith)]

/-- Witness for C4: at incident (1,0,0), normal (0,0,1), eta 2 the quantity
sinT2 equals 4 >= 1 and total internal reflection produces the mirror
direction; at incident (0,0,-1), normal (0,0,1), eta 1/2 the quantity sinT2
equals 0 < 1 and the sqrt argument is nonnegative. -/
theorem refract3D_total_internal_reflection_witness :
    refract3D (fun _ => 0) ⟨1, 0, 0⟩ ⟨0, 0, 1⟩ 2 = reflect3 ⟨1, 0, 0⟩ ⟨0, 0, 1⟩ ∧
    (0 ≤ 1 - sinT2val ⟨0, 0, -1⟩ ⟨0, 0, 1⟩ (1/2) ∧
      refract3D (fun _ => 1) ⟨0, 0, -1⟩ ⟨0, 0, 1⟩ (1/2) =
        add3 (smul3 (1/2) ⟨0, 0, -1⟩)
          (smul3 ((1/2) * cosIncidence ⟨0, 0, -1⟩ ⟨0, 0, 1⟩ -
            (fun _ => (1 : ℚ)) (1 - sinT2val ⟨0, 0, -1⟩ ⟨0, 0, 1⟩ (1/2))) ⟨0, 0, 1⟩)) :=
  ⟨(refract3D_total_internal_reflection (fun _ => 0) ⟨1, 0, 0⟩ ⟨0, 0, 1⟩ 2).1 (by
      norm_num [sinT2val, cosIncidence, dot3, neg3]),
   (refract3D_total_internal_reflection (fun _ => 1) ⟨0, 0, -1⟩ ⟨0, 0, 1⟩ (1/2)).2 (by
      norm_num [sinT2val, cosIncidence, dot3, neg3])⟩

/-- The five glass shapes (src/npm/src/types.ts, GlassShape). -/
inductive GlassShape where
  | sphere
  | cylinder
  | lens
  | prism
  | flat
deriving DecidableEq, Repr

/-- Embedding of PhysicsGlass.getShapeIndex (PhysicsGlass.ts lines 269-272):
indexOf in the array ['sphere', 'cylinder', 'lens', 'prism', 'flat'],
converted to the float uniform u_glassShape. -/
def getShapeIndex : GlassShape → ℚ
  | GlassShape.sphere => 0
  | GlassShape.cylinder => 1
  | GlassShape.lens => 2
  | GlassShape.prism => 3
  | GlassShape.flat => 4

/-- Embedding of the distortion-scale computation in the fragment shader
main (lines 243-252).  dist stands for length(uv - u_mousePos), so
distFromCenter * distFromCenter = dist * dist, exact for the real square
root.  The curvature multiplier is applied exactly on the branch
u_glassShape < 2.5. -/
def distortionScale (thickness glassShape dist : ℚ) : ℚ :=
  if glassShape < 5/2 then
    thickness * (3/10) * (1 + dist * dist * 2)
  else
    thickness * (3/10)

/-- C1 counterexample: at shape cylinder (index 1), thickness 1, and a pixel
at distance 1/2 from the center (for instance uv - u_mousePos = (3/10, 2/5)),
the distortion scale is 9/20, not the claimed thickness * 0.3 = 3/10: the
branch u_glassShape < 2.5 also captures the cylinder. -/
theorem distortionScale_cylinder_counterexample :
    distortionScale 1 (getShapeIndex GlassShape.cylinder) (1/2) = 9/20 ∧
    distortionScale 1 (getShapeIndex GlassShape.cylinder) (1/2) ≠ 1 * (3/10) := by
  constructor <;> norm_num [distortionScale, getShapeIndex]

/-- C1 amended: the distortion scale is thickness * 0.3 multiplied by the
curvature factor (1 + dist^2 * 2) exactly when the shape is sphere,
cylinder, or lens (shape index < 2.5); prism and flat get no curvature
multiplier. -/
theorem distortionScale_shape_cases (shape : GlassShape) (thickness dist : ℚ) :
    distortionScale thickness (getShapeIndex shape) dist =
      if shape = GlassShape.sphere ∨ shape = GlassShape.cylinder ∨ shape = GlassShape.lens then
        thickness * (3/10) * (1 + dist * dist * 2)
      else
        thickness * (3/10) := by
  cases shape <;> simp [distortionScale, getShapeIndex] <;> norm_num

/-- Embedding of the hit/miss decision of traceGlassShape (fragment shader
lines 128-211) combined with the glassInfo.w < 0.5 test in main (line 219).
dist stands for length(uv - u_mousePos).  In the sphere branch the ray has
origin (uv, 2) and direction (0, 0, -1), so oc = (uv - u_mousePos, 2),
b = dot(oc, rayDir) = -2 and c = dot(oc, oc) - r * r = dist * dist + 4 - r * r;
the branch misses when the discriminant b * b - c is negative or when
intersections.x = -b - sqrt(discriminant) is negative.  The lens branch is
the same computation with radius glassSize * 1.5.  In the prism branch, sinA
stands for sin(3 * angle) at this pixel.  In the cylinder branch the ray
direction has rd.xy = (0, 0), so a = 0, b = 0, c = dist * dist - r * r and
the discriminant b * b - 4 * a * c is 0, hence t1 = (0 - sqrt 0) / (2 * 0)
= 0 / 0, an IEEE NaN; the GLSL comparison NaN < 0.0 is false, so the miss
guard never fires and the branch always reports a hit. -/
def traceHit (sq : ℚ → ℚ) (dist sinA glassShape glassSize : ℚ) : Bool :=
  if glassShape < 1/2 then
    if (-2 : ℚ) * (-2) - (dist * dist + 4 - glassSize * glassSize) < 0 then false
    else if -(-2 : ℚ) - sq ((-2 : ℚ) * (-2) - (dist * dist + 4 - glassSize * glassSize)) < 0
      then false
    else true
  else if glassShape < 3/2 then
    true
  else if glassShape < 5/2 then
    if (-2 : ℚ) * (-2) - (dist * dist + 4 - glassSize * (3/2) * (glassSize * (3/2))) < 0
      then false
    else if -(-2 : ℚ) -
        sq ((-2 : ℚ) * (-2) - (dist * dist + 4 - glassSize * (3/2) * (glassSize * (3/2)))) < 0
      then false
    else true
  else if glassShape < 7/2 then
    if glassSize < dist then false
    else if glassSize * (sinA * (3/10) + 7/10) < dist then false
    else true
  else
    if glassSize < dist then false else true

/-- GLSL clamp(x, lo, hi) = min(max(x, lo), hi). -/
def glslClamp (x lo hi : ℚ) : ℚ := min (max x lo) hi

/-- GLSL smoothstep(e0, e1, x): Hermite interpolation of the clamped
normalized position. -/
def smoothstep (e0 e1 x : ℚ) : ℚ :=
  glslClamp ((x - e0) / (e1 - e0)) 0 1 * glslClamp ((x - e0) / (e1 - e0)) 0 1 *
    (3 - 2 * glslClamp ((x - e0) / (e1 - e0)) 0 1)

/-- GLSL mix(a, b, t) componentwise on vec3: a * (1 - t) + b * t. -/
def mix3 (a b : Vec3) (t : ℚ) : Vec3 :=
  ⟨a.x * (1 - t) + b.x * t, a.y * (1 - t) + b.y * t, a.z * (1 - t) + b.z * t⟩

/-- Embedding of fresnel (fragment shader lines 98-101). -/
def fresnel (cosTheta n1 n2 : ℚ) : ℚ :=
  ((n1 - n2) / (n1 + n2)) ^ 2 + (1 - ((n1 - n2) / (n1 + n2)) ^ 2) * (1 - cosTheta) ^ 5

/-- The per-channel UV offset refracted.xy * distortionScale (main, lines
239-256); the incident direction is -viewDir = (0, 0, -1). -/
def refractOffset (sq : ℚ → ℚ) (normal : Vec3) (eta dScale : ℚ) : Vec2 :=
  ⟨(refract3D sq ⟨0, 0, -1⟩ normal eta).x * dScale,
   (refract3D sq ⟨0, 0, -1⟩ normal eta).y * dScale⟩

/-- The background sampling coordinate uv + offset for one channel (main,
lines 259-261). -/
def sampleCoord (sq : ℚ → ℚ) (normal : Vec3) (eta dScale : ℚ) (uv : Vec2) : Vec2 :=
  ⟨uv.x + (refractOffset sq normal eta dScale).x,
   uv.y + (refractOffset sq normal eta dScale).y⟩

/-- The recombination vec3(bgColorR.r, bgColorG.g, bgColorB.b) from the
three per-channel background samples (main, line 263); bg abstracts
getBackgroundPattern at the fixed pattern selector and time. -/
def refractedColor (bg : Vec2 → Vec3) (pR pG pB : Vec2) : Vec3 :=
  ⟨(bg pR).x, (bg pG).y, (bg pB).z⟩

/-- Embedding of the fragment shader main (lines 213-288) for one pixel.
normal abstracts the perturbed surface normal returned by traceGlassShape on
a hit (its value does not feed the hit test or the alpha), bg abstracts
getBackgroundPattern, sinA the prism angle term, and dist stands for
length(uv - u_mousePos).  The per-channel etas are 1/(n - d), 1/n, 1/(n + d)
(lines 234-236), and alpha = glassMask * 0.4 + edge * 0.6 (lines 275-284). -/
def mainPixel (sq : ℚ → ℚ) (sinA : ℚ) (normal : Vec3) (bg : Vec2 → Vec3)
    (uv : Vec2) (dist refractionIndex dispersion thickness glassShape glassSize : ℚ) : Vec4 :=
  if traceHit sq dist sinA glassShape glassSize then
    let fresnelTerm := fresnel (|dot3 ⟨0, 0, 1⟩ normal|) 1 refractionIndex
    let dScale := distortionScale thickness glassShape dist
    let pR := sampleCoord sq normal (1 / (refractionIndex - dispersion)) dScale uv
    let pG := sampleCoord sq normal (1 / refractionIndex) dScale uv
    let pB := sampleCoord sq normal (1 / (refractionIndex + dispersion)) dScale uv
    let fc := mix3 (refractedColor bg pR pG pB) ⟨9/10, 19/20, 1⟩ fresnelTerm
    let caustic := (max 0 (dot3 normal ⟨1/2, 1/2, 1⟩)) ^ 3
    let fc2 := add3 fc (smul3 (caustic * (2/5)) ⟨1, 1, 9/10⟩)
    let alpha := smoothstep (glassSize + 1/50) (glassSize - 1/50) dist * (2/5) +
      (1 - smoothstep (glassSize - 1/200) glassSize dist) * (3/5)
    ⟨fc2.x, fc2.y, fc2.z, alpha⟩
  else
    ⟨0, 0, 0, 0⟩

lemma mainPixel_miss {sq : ℚ → ℚ} {sinA : ℚ} {normal : Vec3} {bg : Vec2 → Vec3}
    {uv : Vec2} {dist n d th gs size : ℚ}
    (hm : traceHit sq dist sinA gs size = false) :
    mainPixel sq sinA normal bg uv dist n d th gs size = ⟨0, 0, 0, 0⟩ := by
  simp [mainPixel, hm]

/-- C2 amended: for the shapes flat, prism, and sphere, every pixel whose
distance from the center exceeds the glass size reports no-hit and is
written as the fully transparent vec4(0); for lens the intersected sphere
has radius glassSize * 1.5, so no-hit is only guaranteed once the distance
exceeds 1.5 * size (pixels with size < dist <= 1.5 * size can still hit,
see the counterexample). -/
theorem traceGlass_outside_size_no_hit (sq : ℚ → ℚ) (sinA : ℚ) (normal : Vec3)
    (bg : Vec2 → Vec3) (uv : Vec2) (dist size n d th : ℚ)
    (h0 : 0 ≤ size) (h : size < dist) :
    (traceHit sq dist sinA (getShapeIndex GlassShape.sphere) size = false ∧
      mainPixel sq sinA normal bg uv dist n d th (getShapeIndex GlassShape.sphere) size =
        ⟨0, 0, 0, 0⟩) ∧
    (traceHit sq dist sinA (getShapeIndex GlassShape.prism) size = false ∧
      mainPixel sq sinA normal bg uv dist n d th (getShapeIndex GlassShape.prism) size =
        ⟨0, 0, 0, 0⟩) ∧
    (traceHit sq dist sinA (getShapeIndex GlassShape.flat) size = false ∧
      mainPixel sq sinA normal bg uv dist n d th (getShapeIndex GlassShape.flat) size =
        ⟨0, 0, 0, 0⟩) ∧
    (size * (3/2) < dist →
      traceHit sq dist sinA (getShapeIndex GlassShape.lens) size = false ∧
      mainPixel sq sinA normal bg uv dist n d th (getShapeIndex GlassShape.lens) size =
        ⟨0, 0, 0, 0⟩) := by
  have hsphere : traceHit sq dist sinA (getShapeIndex GlassShape.sphere) size = false := by
    have hd : (-2 : ℚ) * (-2) - (dist * dist + 4 - size * size) < 0 := by nlinarith
    simp only [traceHit, getShapeIndex]
    rw [if_pos (by norm_num : (0 : ℚ) < 1/2), if_pos hd]
  have hprism : traceHit sq dist sinA (getShapeIndex GlassShape.prism) size = false := by
    simp only [traceHit, getShapeIndex]
    rw [if_neg (by norm_num : ¬((3 : ℚ) < 1/2)), if_neg (by norm_num : ¬((3 : ℚ) < 3/2)),
      if_neg (by norm_num : ¬((3 : ℚ) < 5/2)), if_pos (by norm_num : (3 : ℚ) < 7/2),
      if_pos h]
  have hflat : traceHit sq dist sinA (getShapeIndex GlassShape.flat) size = false := by
    simp only [traceHit, getShapeIndex]
    rw [if_neg (by norm_num : ¬((4 : ℚ) < 1/2)), if_neg (by norm_num : ¬((4 : ℚ) < 3/2)),
      if_neg (by norm_num : ¬((4 : ℚ) < 5/2)), if_neg (by norm_num : ¬((4 : ℚ) < 7/2)),
      if_pos h]
  refine ⟨⟨hsphere, mainPixel_miss hsphere⟩, ⟨hprism, mainPixel_miss hprism⟩,
    ⟨hflat, mainPixel_miss hflat⟩, fun hlens => ?_⟩
  have hmiss : traceHit sq dist sinA (getShapeIndex GlassShape.lens) size = false := by
    have hd : (-2 : ℚ) * (-2) - (dist * dist + 4 - size * (3/2) * (size * (3/2))) < 0 := by
      nlinarith
    simp only [traceHit, getShapeIndex]
    rw [if_neg (by norm_num : ¬((2 : ℚ) < 1/2)), if_neg (by norm_num : ¬((2 : ℚ) < 3/2)),
      if_pos (by norm_num : (2 : ℚ) < 5/2), if_pos hd]
  exact ⟨hmiss, mainPixel_miss hmiss⟩

/-- Witness for C2 amended: at size 1/4 and distance 1/2 every listed shape
misses and the pixel is the zero vec4, including the lens since
1/4 * 3/2 = 3/8 < 1/2. -/
theorem traceGlass_outside_size_no_hit_witness :
    (traceHit (fun _ => 0) (1/2) 0 (getShapeIndex GlassShape.sphere) (1/4) = false ∧
      mainPixel (fun _ => 0) 0 ⟨0, 0, 1⟩ (fun _ => ⟨0, 0, 0⟩) ⟨0, 0⟩ (1/2) (3/2) (3/100)
        (3/10) (getShapeIndex GlassShape.sphere) (1/4) = ⟨0, 0, 0, 0⟩) ∧
    (traceHit (fun _ => 0) (1/2) 0 (getShapeIndex GlassShape.prism) (1/4) = false ∧
      mainPixel (fun _ => 0) 0 ⟨0, 0, 1⟩ (fun _ => ⟨0, 0, 0⟩) ⟨0, 0⟩ (1/2) (3/2) (3/100)
        (3/10) (getShapeIndex GlassShape.prism) (1/4) = ⟨0, 0, 0, 0⟩) ∧
    (traceHit (fun _ => 0) (1/2) 0 (getShapeIndex GlassShape.flat) (1/4) = false ∧
      mainPixel (fun _ => 0) 0 ⟨0, 0, 1⟩ (fun _ => ⟨0, 0, 0⟩) ⟨0, 0⟩ (1/2) (3/2) (3/100)
        (3/10) (getShapeIndex GlassShape.flat) (1/4) = ⟨0, 0, 0, 0⟩) ∧
    (traceHit (fun _ => 0) (1/2) 0 (getShapeIndex GlassShape.lens) (1/4) = false ∧
      mainPixel (fun _ => 0) 0 ⟨0, 0, 1⟩ (fun _ => ⟨0, 0, 0⟩) ⟨0, 0⟩ (1/2) (3/2) (3/100)
        (3/10) (getShapeIndex GlassShape.lens) (1/4) = ⟨0, 0, 0, 0⟩) := by
  have h := traceGlass_outside_size_no_hit (fun _ => 0) 0 ⟨0, 0, 1⟩ (fun _ => ⟨0, 0, 0⟩)
    ⟨0, 0⟩ (1/2) (1/4) (3/2) (3/100) (3/10) (by norm_num) (by norm_num)
  exact ⟨h.1, h.2.1, h.2.2.1, h.2.2.2 (by norm_num)⟩

lemma mainPixel_hit_w {sq : ℚ → ℚ} {sinA : ℚ} {normal : Vec3} {bg : Vec2 → Vec3}
    {uv : Vec2} {dist n d th gs size : ℚ}
    (hm : traceHit sq dist sinA gs size = true) :
    (mainPixel sq sinA normal bg uv dist n d th gs size).w =
      smoothstep (size + 1/50) (size - 1/50) dist * (2/5) +
        (1 - smoothstep (size - 1/200) size dist) * (3/5) := by
  simp [mainPixel, hm]

/-- The concrete sqrt used by the C2 counterexample.  The only radicands the
pipeline evaluates there are the lens discriminant 441/13456, whose real
square root is exactly 21/116, and the refraction radicand 1 - sinT2 = 1
(the normal is (0,0,1) and the incident direction (0,0,-1), so cosI = 1 and
sinT2 = 0), whose real square root is 1; the function agrees with the real
square root at both. -/
def sqC2 : ℚ → ℚ := fun q => if q = 1 then 1 else if q = 441/13456 then 21/116 else 0

/-- C2 counterexample: with shape lens, glass size 1/6 and a pixel at
distance 5/29 > 1/6 from the center (uv = (1/2 + 5/29, 1/2), mouse at
(1/2, 1/2), so length(uv - u_mousePos) = 5/29 exactly), the intersector
hits (the lens sphere radius is 1/6 * 1.5 = 1/4 > 5/29) and the written
pixel has alpha > 0: the pixel is neither a no-hit nor fully transparent. -/
theorem traceGlass_lens_outside_size_counterexample :
    (1/6 : ℚ) < 5/29 ∧
    traceHit sqC2 (5/29) 0 (getShapeIndex GlassShape.lens) (1/6) = true ∧
    0 < (mainPixel sqC2 0 ⟨0, 0, 1⟩ (fun _ => ⟨0, 0, 0⟩) ⟨1/2 + 5/29, 1/2⟩ (5/29) (3/2)
      (3/100) (3/10) (getShapeIndex GlassShape.lens) (1/6)).w := by
  have hhit : traceHit sqC2 (5/29) 0 (getShapeIndex GlassShape.lens) (1/6) = true := by
    simp only [traceHit, getShapeIndex]
    norm_num [sqC2]
  refine ⟨by norm_num, hhit, ?_⟩
  rw [mainPixel_hit_w hhit]
  norm_num [smoothstep, glslClamp, min_def, max_def]

/-- C5: with dispersion 0 the three per-channel eta values 1/(n - d), 1/n,
1/(n + d) coincide, the three per-channel sampling coordinates are
identical, and recombining the red, green, and blue samples reproduces the
background color sampled at that single coordinate: no color fringing. -/
theorem dispersion_zero_no_fringing (sq : ℚ → ℚ) (normal : Vec3) (uv : Vec2)
    (n dScale : ℚ) (bg : Vec2 → Vec3) :
    (1 / (n - 0) = 1 / n ∧ 1 / (n + 0) = 1 / n) ∧
    sampleCoord sq normal (1 / (n - 0)) dScale uv = sampleCoord sq normal (1 / n) dScale uv ∧
    sampleCoord sq normal (1 / (n + 0)) dScale uv = sampleCoord sq normal (1 / n) dScale uv ∧
    refractedColor bg (sampleCoord sq normal (1 / (n - 0)) dScale uv)
        (sampleCoord sq normal (1 / n) dScale uv)
        (sampleCoord sq normal (1 / (n + 0)) dScale uv) =
      bg (sampleCoord sq normal (1 / n) dScale uv) := by
  rw [sub_zero, add_zero]
  exact ⟨⟨rfl, rfl⟩, rfl, rfl, rfl⟩

/-- Error codes thrown by the library (src/npm/src/types.ts, ERROR_CODES /
PhysicsGlassError). -/
inductive GlassError where
  | webglNotSupported
  | canvasNotFound
  | shaderCompilationFailed
  | textureLoadFailed
  | invalidConfiguration
deriving DecidableEq, Repr

/-- The configuration fields of PhysicsGlassConfig that the verified claims
touch, after the merge with DEFAULT_CONFIG (PhysicsGlass.ts lines 30-59 and
89).  backgroundTexture is an opaque source identifier (0 stands for the
empty string). -/
structure Config where
  shape : GlassShape
  size : ℚ
  refractionIndex : ℚ
  dispersion : ℚ
  thickness : ℚ
  backgroundTexture : Nat
  animEnabled : Bool
  animSpeed : ℚ
deriving DecidableEq, Repr

/-- The shader uniforms held by the instance (types.ts, ShaderUniforms),
restricted to the scalar fields the claims touch. -/
structure Uniforms where
  time : ℚ
  refractionIndex : ℚ
  dispersion : ℚ
  thickness : ℚ
  glassSize : ℚ
  glassShape : ℚ
deriving DecidableEq, Repr

/-- The WebGL-resident objects (types.ts, WebGLState): the linked program
and the currently bound background texture, as opaque handles. -/
structure WebglModel where
  program : Nat
  backgroundTexture : Option Nat
deriving DecidableEq, Repr

/-- The mutable instance state of a PhysicsGlass object: config, uniforms,
the time accumulator, the isDestroyed flag, whether an animation frame is
scheduled (animationId is non-null), the webglState and the vertex buffer
handle. -/
structure GlassState where
  config : Config
  uniforms : Uniforms
  time : ℚ
  isDestroyed : Bool
  scheduled : Bool
  webgl : Option WebglModel
  vertexBuffer : Option Nat
deriving DecidableEq, Repr

/-- Embedding of validateConfig (PhysicsGlass.ts lines 111-125): throws
PhysicsGlassError INVALID_CONFIGURATION when size is outside (0, 1] or
refractionIndex outside [1, 3]. -/
def validateConfig (cfg : Config) : Except GlassError Unit :=
  if cfg.size ≤ 0 ∨ 1 < cfg.size then Except.error GlassError.invalidConfiguration
  else if cfg.refractionIndex < 1 ∨ 3 < cfg.refractionIndex then
    Except.error GlassError.invalidConfiguration
  else Except.ok ()

/-- Embedding of the private render callback (PhysicsGlass.ts lines
302-316): early return when destroyed or webglState is null; otherwise the
time accumulator advances by 0.016 * animation.speed, the time uniform is
updated, and the next frame is scheduled exactly when animation.enabled. -/
def render (st : GlassState) : GlassState :=
  if st.isDestroyed || st.webgl.isNone then st
  else
    { st with
      time := st.time + (16/1000) * st.config.animSpeed
      uniforms := { st.uniforms with time := st.time + (16/1000) * st.config.animSpeed }
      scheduled := st.config.animEnabled }

/-- Embedding of startAnimation (lines 402-407): sets animation.enabled and,
when no frame is scheduled (animationId is null), invokes render once. -/
def startAnimation (st : GlassState) : GlassState :=
  let s := { st with config := { st.config with animEnabled := true } }
  if s.scheduled then s else render s

/-- Embedding of stopAnimation (lines 409-415): clears animation.enabled and
cancels the scheduled frame. -/
def stopAnimation (st : GlassState) : GlassState :=
  { st with config := { st.config with animEnabled := false }, scheduled := false }

/-- Embedding of setAnimationSpeed (lines 417-419): clamps into [0, 5]. -/
def setAnimationSpeed (st : GlassState) (v : ℚ) : GlassState :=
  { st with config := { st.config with animSpeed := max 0 (min 5 v) } }

/-- Embedding of setSize (lines 325-328): clamps into [0.01, 1] and writes
both config.size and uniforms.glassSize. -/
def setSize (st : GlassState) (v : ℚ) : GlassState :=
  { st with
    config := { st.config with size := max (1/100) (min 1 v) }
    uniforms := { st.uniforms with glassSize := max (1/100) (min 1 v) } }

/-- Embedding of setRefractionIndex (lines 330-333): clamps into [1, 3]. -/
def setRefractionIndex (st : GlassState) (v : ℚ) : GlassState :=
  { st with
    config := { st.config with refractionIndex := max 1 (min 3 v) }
    uniforms := { st.uniforms with refractionIndex := max 1 (min 3 v) } }

/-- Embedding of setDispersion (lines 335-338): clamps into [0, 0.2]. -/
def setDispersion (st : GlassState) (v : ℚ) : GlassState :=
  { st with
    config := { st.config with dispersion := max 0 (min (1/5) v) }
    uniforms := { st.uniforms with dispersion := max 0 (min (1/5) v) } }

/-- Embedding of setThickness (lines 340-343): clamps into [0.1, 2]. -/
def setThickness (st : GlassState) (v : ℚ) : GlassState :=
  { st with
    config := { st.config with thickness := max (1/10) (min 2 v) }
    uniforms := { st.uniforms with thickness := max (1/10) (min 2 v) } }

/-- Embedding of the constructor plus the completed init (PhysicsGlass.ts
lines 73-149): the merged config is validated (a throw is the error
result), the uniforms are initialized verbatim from the config, setupWebGL
installs the program, background texture and quad buffer, and when
animation.enabled the constructor path calls startAnimation, which runs
render once synchronously. -/
def mkInstance (cfg : Config) : Except GlassError GlassState :=
  match validateConfig cfg with
  | Except.error e => Except.error e
  | Except.ok _ =>
    let base : GlassState := {
      config := cfg
      uniforms := {
        time := 0
        refractionIndex := cfg.refractionIndex
        dispersion := cfg.dispersion
        thickness := cfg.thickness
        glassSize := cfg.size
        glassShape := getShapeIndex cfg.shape }
      time := 0
      isDestroyed := false
      scheduled := false
      webgl := some { program := 0, backgroundTexture := some 0 }
      vertexBuffer := some 0 }
    Except.ok (if cfg.animEnabled then startAnimation base else base)

/-- A GPU object release performed through the WebGL context. -/
inductive GpuRelease where
  | texture (id : Nat)
  | buffer (id : Nat)
  | program (id : Nat)
deriving DecidableEq, Repr

/-- Embedding of destroy (lines 425-456): sets isDestroyed, stops the
animation, and, only when webglState is non-null, deletes the background
texture (when present), the vertex buffer (when present) and the program;
finally webglState is cleared.  The returned list records the GPU deletions
performed by this call; the function is total (no code path throws). -/
def destroyOp (st : GlassState) : GlassState × List GpuRelease :=
  let s := { st with
    isDestroyed := true
    config := { st.config with animEnabled := false }
    scheduled := false }
  match s.webgl with
  | none => ({ s with webgl := none }, [])
  | some w =>
    ({ s with webgl := none },
      (match w.backgroundTexture with
        | some t => [GpuRelease.texture t]
        | none => []) ++
      (match s.vertexBuffer with
        | some b => [GpuRelease.buffer b]
        | none => []) ++
      [GpuRelease.program w.program])

/-- Outcome of one setBackgroundTexture call: the next state, the arguments
of the onError invocations, the GPU releases performed, and the error the
returned promise rejects with (none when it resolves). -/
structure TexResult where
  state : GlassState
  onErrorCalls : List GlassError
  released : List GpuRelease
  rejected : Option GlassError
deriving DecidableEq, Repr

/-- Embedding of setBackgroundTexture (lines 350-374).  The asynchronous
texture creation (loadImageTexture, src/npm/src/utils/webgl.ts lines
137-163, or createTextureFromElement) is abstracted by its outcome: ok with
the new texture handle, or error.  The whole body sits in a try/catch whose
catch only calls onError, so the promise never rejects. -/
def setBackgroundTexture (st : GlassState) (src : Nat)
    (outcome : Except GlassError Nat) : TexResult :=
  match st.webgl with
  | none => ⟨st, [], [], none⟩
  | some w =>
    match outcome with
    | Except.error e => ⟨st, [e], [], none⟩
    | Except.ok newTex =>
      ⟨{ st with
          webgl := some { w with backgroundTexture := some newTex }
          config := { st.config with backgroundTexture := src } },
        [],
        (match w.backgroundTexture with
          | some t => [GpuRelease.texture t]
          | none => []),
        none⟩

/-- The externally triggered operations relevant to the animation claims: a
scheduled animation-frame callback firing, startAnimation, stopAnimation,
setAnimationSpeed, and destroy. -/
inductive Op where
  | frame
  | start
  | stop
  | setSpeed (v : ℚ)
  | dispose
deriving DecidableEq, Repr

/-- One step of the instance under an operation.  A frame callback can only
fire when one is scheduled; firing consumes the schedule and runs render,
which re-schedules exactly when animation.enabled. -/
def applyOp (st : GlassState) : Op → GlassState
  | Op.frame => if st.scheduled then render { st with scheduled := false } else st
  | Op.start => startAnimation st
  | Op.stop => stopAnimation st
  | Op.setSpeed v => setAnimationSpeed st v
  | Op.dispose => (destroyOp st).1

/-- A concrete post-construction state used by the witnesses: the default
configuration of DEFAULT_CONFIG (sphere, size 0.15, refractionIndex 1.5,
dispersion 0.03, thickness 0.3, animation enabled at speed 1) with one
frame scheduled. -/
def stDemo : GlassState := {
  config := {
    shape := GlassShape.sphere
    size := 3/20
    refractionIndex := 3/2
    dispersion := 3/100
    thickness := 3/10
    backgroundTexture := 0
    animEnabled := true
    animSpeed := 1 }
  uniforms := {
    time := 0
    refractionIndex := 3/2
    dispersion := 3/100
    thickness := 3/10
    glassSize := 3/20
    glassShape := 0 }
  time := 0
  isDestroyed := false
  scheduled := true
  webgl := some { program := 0, backgroundTexture := some 0 }
  vertexBuffer := some 0 }

lemma render_time_mono (st : GlassState) (h : 0 ≤ st.config.animSpeed) :
    st.time ≤ (render st).time := by
  unfold render
  split
  · exact le_refl _
  · show st.time ≤ st.time + (16/1000) * st.config.animSpeed
    linarith [mul_nonneg (show (0 : ℚ) ≤ 16/1000 by norm_num) h]

/-- C3 counterexample: a construction config with size 2 (outside (0, 1]) is
not clamped but rejected: validateConfig, called by the constructor, throws
PhysicsGlassError INVALID_CONFIGURATION. -/
def cfgBadSize : Config := {
  shape := GlassShape.sphere
  size := 2
  refractionIndex := 3/2
  dispersion := 3/100
  thickness := 3/10
  backgroundTexture := 0
  animEnabled := false
  animSpeed := 1 }

theorem mkInstance_rejects_out_of_range_counterexample :
    mkInstance cfgBadSize = Except.error GlassError.invalidConfiguration ∧
    validateConfig cfgBadSize = Except.error GlassError.invalidConfiguration := by
  constructor <;> norm_num [mkInstance, validateConfig, cfgBadSize]

/-- C3 amended: values reaching size and refractionIndex through the setters
are clamped into [0.01, 1] and [1, 3] and mirrored into the uniforms, and
the setters never raise; but at construction an out-of-range size or
refractionIndex is not clamped: validateConfig rejects it with
INVALID_CONFIGURATION. -/
theorem setters_clamp_constructor_rejects (st : GlassState) (v : ℚ) (cfg : Config) :
    (1/100 ≤ (setSize st v).config.size ∧ (setSize st v).config.size ≤ 1 ∧
      (setSize st v).uniforms.glassSize = (setSize st v).config.size) ∧
    (1 ≤ (setRefractionIndex st v).config.refractionIndex ∧
      (setRefractionIndex st v).config.refractionIndex ≤ 3 ∧
      (setRefractionIndex st v).uniforms.refractionIndex =
        (setRefractionIndex st v).config.refractionIndex) ∧
    ((cfg.size ≤ 0 ∨ 1 < cfg.size ∨ cfg.refractionIndex < 1 ∨ 3 < cfg.refractionIndex) →
      mkInstance cfg = Except.error GlassError.invalidConfiguration) := by
  refine ⟨⟨le_max_left _ _, max_le (by norm_num) (min_le_left _ _), rfl⟩,
    ⟨le_max_left _ _, max_le (by norm_num) (min_le_left _ _), rfl⟩, fun h => ?_⟩
  by_cases hs : cfg.size ≤ 0 ∨ 1 < cfg.size
  · simp [mkInstance, validateConfig, hs]
  · have hr : cfg.refractionIndex < 1 ∨ 3 < cfg.refractionIndex := by tauto
    simp [mkInstance, validateConfig, hs, hr]

/-- Witness for C3 amended: setSize with -5 on the demo state lands in
[0.01, 1] with matching uniform, likewise setRefractionIndex, and the
constructor rejects cfgBadSize (size 2 > 1). -/
theorem setters_clamp_constructor_rejects_witness :
    ((1/100 ≤ (setSize stDemo (-5)).config.size ∧ (setSize stDemo (-5)).config.size ≤ 1 ∧
      (setSize stDemo (-5)).uniforms.glassSize = (setSize stDemo (-5)).config.size) ∧
    (1 ≤ (setRefractionIndex stDemo (-5)).config.refractionIndex ∧
      (setRefractionIndex stDemo (-5)).config.refractionIndex ≤ 3 ∧
      (setRefractionIndex stDemo (-5)).uniforms.refractionIndex =
        (setRefractionIndex stDemo (-5)).config.refractionIndex)) ∧
    mkInstance cfgBadSize = Except.error GlassError.invalidConfiguration := by
  have h := setters_clamp_constructor_rejects stDemo (-5) cfgBadSize
  exact ⟨⟨h.1, h.2.1⟩, h.2.2 (Or.inr (Or.inl (by norm_num [cfgBadSize])))⟩

/-- C6: when the asynchronous texture load or texture creation fails,
setBackgroundTexture invokes onError with exactly that error, the promise
resolves (nothing propagates to the caller), no GPU object is released, and
the state is left fully intact: the previously bound background texture
remains bound and config.backgroundTexture is unchanged. -/
theorem setBackgroundTexture_error_preserves_state (st : GlassState) (w : WebglModel)
    (src : Nat) (e : GlassError) (h : st.webgl = some w) :
    setBackgroundTexture st src (Except.error e) = ⟨st, [e], [], none⟩ := by
  simp [setBackgroundTexture, h]

/-- Witness for C6: on the demo state (texture 0 bound), a failing load with
TEXTURE_LOAD_FAILED reports through onError only and changes nothing. -/
theorem setBackgroundTexture_error_preserves_state_witness :
    setBackgroundTexture stDemo 7 (Except.error GlassError.textureLoadFailed) =
      ⟨stDemo, [GlassError.textureLoadFailed], [], none⟩ :=
  setBackgroundTexture_error_preserves_state stDemo
    { program := 0, backgroundTexture := some 0 } 7 GlassError.textureLoadFailed rfl

/-- C7 amended: whenever the current speed multiplier is nonnegative, every
operation leaves the time accumulator non-decreasing, and a fired frame
advances it by exactly 0.016 * speed; while paused (animation disabled,
nothing scheduled) every operation that leaves the animation disabled keeps
the time accumulator unchanged and schedules no frame; setAnimationSpeed
keeps the multiplier in [0, 5].  The stated claim fails because the
constructor does not clamp animation.speed, so a negative configured speed
makes the accumulator decrease (see the counterexample). -/
theorem animation_time_monotone (st : GlassState) (op : Op) (v : ℚ) :
    (0 ≤ st.config.animSpeed → st.time ≤ (applyOp st op).time) ∧
    (st.config.animEnabled = false → st.scheduled = false →
      (applyOp st op).config.animEnabled = false →
      (applyOp st op).time = st.time ∧ (applyOp st op).scheduled = false) ∧
    (0 ≤ (setAnimationSpeed st v).config.animSpeed ∧
      (setAnimationSpeed st v).config.animSpeed ≤ 5) ∧
    (st.scheduled = true → st.isDestroyed = false → st.webgl.isSome = true →
      (applyOp st Op.frame).time = st.time + (16/1000) * st.config.animSpeed) := by
  refine ⟨?_, ?_, ⟨le_max_left _ _, max_le (by norm_num) (min_le_left _ _)⟩, ?_⟩
  · intro h
    cases op with
    | frame =>
      simp only [applyOp]
      split
      · exact render_time_mono { st with scheduled := false } h
      · exact le_refl _
    | start =>
      simp only [applyOp, startAnimation]
      split
      · exact le_refl _
      · exact render_time_mono _ h
    | stop => exact le_refl _
    | setSpeed w => exact le_refl _
    | dispose =>
      simp only [applyOp, destroyOp]
      split <;> exact le_refl _
  · intro h1 h2 h3
    cases op with
    | frame => simp [applyOp, h2]
    | start =>
      exfalso
      revert h3
      simp only [applyOp, startAnimation, render]
      split
      · simp
      · split <;> simp
    | stop => exact ⟨rfl, rfl⟩
    | setSpeed w => exact ⟨rfl, h2⟩
    | dispose =>
      simp only [applyOp, destroyOp]
      split <;> exact ⟨rfl, rfl⟩
  · intro hs hd hw
    obtain ⟨w, hw2⟩ := Option.isSome_iff_exists.mp hw
    simp [applyOp, hs, render, hd, hw2]

/-- The configuration of the C7 counterexample: valid size and refraction
index, animation enabled, but animation.speed = -1, which neither
validateConfig nor the constructor clamps. -/
def cfgNegSpeed : Config := {
  shape := GlassShape.sphere
  size := 3/20
  refractionIndex := 3/2
  dispersion := 3/100
  thickness := 3/10
  backgroundTexture := 0
  animEnabled := true
  animSpeed := -1 }

/-- The state produced by constructing with cfgNegSpeed: init ran
startAnimation, whose render call already moved the accumulator to
0 + 0.016 * (-1) = -2/125 and scheduled the next frame. -/
def c7State : GlassState := {
  config := cfgNegSpeed
  uniforms := {
    time := -2/125
    refractionIndex := 3/2
    dispersion := 3/100
    thickness := 3/10
    glassSize := 3/20
    glassShape := 0 }
  time := -2/125
  isDestroyed := false
  scheduled := true
  webgl := some { program := 0, backgroundTexture := some 0 }
  vertexBuffer := some 0 }

/-- C7 counterexample: construction with animation.speed = -1 succeeds (the
constructor validates only size and refractionIndex), reaches the running
state c7State with a frame scheduled, and the next fired frame strictly
decreases the time accumulator: the accumulator is not non-decreasing
across rendered frames while running. -/
theorem negative_speed_time_decreases_counterexample :
    mkInstance cfgNegSpeed = Except.ok c7State ∧
    c7State.config.animEnabled = true ∧
    c7State.scheduled = true ∧
    (applyOp c7State Op.frame).time < c7State.time := by
  refine ⟨?_, rfl, rfl, ?_⟩
  · norm_num [mkInstance, validateConfig, cfgNegSpeed, startAnimation, render, c7State,
      getShapeIndex]
  · norm_num [applyOp, render, c7State, cfgNegSpeed]

/-- Witness for C7 amended, at the demo state (speed 1, one frame scheduled)
and at its paused variant (stopAnimation stDemo). -/
theorem animation_time_monotone_witness :
    (stDemo.time ≤ (applyOp stDemo Op.frame).time ∧
      (0 ≤ (setAnimationSpeed stDemo 9).config.animSpeed ∧
        (setAnimationSpeed stDemo 9).config.animSpeed ≤ 5) ∧
      (applyOp stDemo Op.frame).time = stDemo.time + (16/1000) * stDemo.config.animSpeed) ∧
    ((applyOp (stopAnimation stDemo) Op.frame).time = (stopAnimation stDemo).time ∧
      (applyOp (stopAnimation stDemo) Op.frame).scheduled = false) := by
  have h1 := animation_time_monotone stDemo Op.frame 9
  have h2 := animation_time_monotone (stopAnimation stDemo) Op.frame 9
  exact ⟨⟨h1.1 (by norm_num [stDemo]), h1.2.2.1,
      h1.2.2.2 rfl rfl rfl⟩,
    h2.2.1 rfl rfl (by norm_num [applyOp, stopAnimation, stDemo])⟩

/-- C8: as state transformers, setSize with -1 and with 0.01 coincide (both
store size 0.01 in config and uniforms), and setRefractionIndex with 10 and
with 3 coincide (both store 3). -/
theorem setSize_setRefractionIndex_clamp_equiv (st : GlassState) :
    setSize st (-1) = setSize st (1/100) ∧
    (setSize st (-1)).config.size = 1/100 ∧
    (setSize st (-1)).uniforms.glassSize = 1/100 ∧
    setRefractionIndex st 10 = setRefractionIndex st 3 ∧
    (setRefractionIndex st 10).config.refractionIndex = 3 ∧
    (setRefractionIndex st 10).uniforms.refractionIndex = 3 := by
  have h1 : max (1/100 : ℚ) (min 1 (-1)) = 1/100 := by norm_num [min_def, max_def]
  have h2 : max (1/100 : ℚ) (min 1 (1/100)) = 1/100 := by norm_num [min_def, max_def]
  have h3 : max (1 : ℚ) (min 3 10) = 3 := by norm_num [min_def, max_def]
  have h4 : max (1 : ℚ) (min 3 3) = 3 := by norm_num [min_def, max_def]
  refine ⟨?_, ?_, ?_, ?_, ?_, ?_⟩ <;> simp [setSize, setRefractionIndex, h1, h2, h3, h4] <;>
    norm_num

/-- C9: destroy clears the WebGL state, and a second destroy on the
already-destroyed instance performs no GPU deletion at all (no double-free)
and leaves the state exactly as the first call left it; destroyOp is a
total function, so no call throws. -/
theorem destroy_twice_no_double_free (st : GlassState) :
    (destroyOp st).1.webgl = none ∧
    (destroyOp st).1.isDestroyed = true ∧
    (destroyOp (destroyOp st).1).2 = [] ∧
    (destroyOp (destroyOp st).1).1 = (destroyOp st).1 := by
  obtain ⟨cfg, uni, t, d, sch, w, vb⟩ := st
  obtain ⟨sh, sz, ri, dp, th, bt, ae, sp⟩ := cfg
  cases w <;> simp [destroyOp]

lemma mkInstance_ok_fields (cfg : Config) (st : GlassState)
    (h : mkInstance cfg = Except.ok st) :
    st.uniforms.dispersion = cfg.dispersion ∧ st.uniforms.thickness = cfg.thickness ∧
    st.config.dispersion = cfg.dispersion ∧ st.config.thickness = cfg.thickness := by
  unfold mkInstance at h
  cases hv : validateConfig cfg with
  | error e => rw [hv] at h; exact absurd h (by simp)
  | ok u =>
    rw [hv] at h
    simp only [Except.ok.injEq] at h
    subst h
    by_cases he : cfg.animEnabled <;> simp [he, startAnimation, render]

/-- C10: a successful construction copies dispersion and thickness verbatim
from the config into the uniforms (and keeps them verbatim in the stored
config), with no clamping; the [0, 0.2] and [0.1, 2] ranges are enforced
only by setDispersion and setThickness, which clamp into them and mirror
the clamped value into the uniforms. -/
theorem constructor_preserves_dispersion_thickness (cfg : Config) (st : GlassState) (v : ℚ)
    (h : mkInstance cfg = Except.ok st) :
    st.uniforms.dispersion = cfg.dispersion ∧ st.uniforms.thickness = cfg.thickness ∧
    st.config.dispersion = cfg.dispersion ∧ st.config.thickness = cfg.thickness ∧
    (0 ≤ (setDispersion st v).config.dispersion ∧
      (setDispersion st v).config.dispersion ≤ 1/5 ∧
      (setDispersion st v).uniforms.dispersion = (setDispersion st v).config.dispersion) ∧
    (1/10 ≤ (setThickness st v).config.thickness ∧
      (setThickness st v).config.thickness ≤ 2 ∧
      (setThickness st v).uniforms.thickness = (setThickness st v).config.thickness) := by
  obtain ⟨h1, h2, h3, h4⟩ := mkInstance_ok_fields cfg st h
  exact ⟨h1, h2, h3, h4,
    ⟨le_max_left _ _, max_le (by norm_num) (min_le_left _ _), rfl⟩,
    ⟨le_max_left _ _, max_le (by norm_num) (min_le_left _ _), rfl⟩⟩

/-- A construction config whose dispersion (5) and thickness (100) lie far
outside the declared ranges [0, 0.2] and [0.1, 2] while size and
refractionIndex are valid: the constructor accepts it unchanged. -/
def cfgWild : Config := {
  shape := GlassShape.sphere
  size := 3/20
  refractionIndex := 3/2
  dispersion := 5
  thickness := 100
  backgroundTexture := 0
  animEnabled := false
  animSpeed := 1 }

/-- The state produced by constructing with cfgWild. -/
def c10State : GlassState := {
  config := cfgWild
  uniforms := {
    time := 0
    refractionIndex := 3/2
    dispersion := 5
    thickness := 100
    glassSize := 3/20
    glassShape := 0 }
  time := 0
  isDestroyed := false
  scheduled := false
  webgl := some { program := 0, backgroundTexture := some 0 }
  vertexBuffer := some 0 }

/-- Witness for C10: constructing with dispersion 5 and thickness 100 keeps
both verbatim in the uniforms, and the setters clamp. -/
theorem constructor_preserves_dispersion_thickness_witness :
    c10State.uniforms.dispersion = cfgWild.dispersion ∧
    c10State.uniforms.thickness = cfgWild.thickness ∧
    c10State.config.dispersion = cfgWild.dispersion ∧
    c10State.config.thickness = cfgWild.thickness ∧
    (0 ≤ (setDispersion c10State 7).config.dispersion ∧
      (setDispersion c10State 7).config.dispersion ≤ 1/5 ∧
      (setDispersion c10State 7).uniforms.dispersion =
        (setDispersion c10State 7).config.dispersion) ∧
    (1/10 ≤ (setThickness c10State 7).config.thickness ∧
      (setThickness c10State 7).config.thickness ≤ 2 ∧
      (setThickness c10State 7).uniforms.thickness =
        (setThickness c10State 7).config.thickness) :=
  constructor_preserves_dispersion_thickness cfgWild c10State 7
    (by norm_num [mkInstance, validateConfig, cfgWild, c10State, getShapeIndex])
